import Mathlib

/-!
# Shallow embedding of the `sqs-consumer` polling loop

This file embeds the JavaScript source of the SQS consumer (`consumer.js`,
given as `src/unnamed/part_000`) into Lean.  Asynchronous functions become
pure functions over an explicit environment describing how each external
SQS call and the user handler settle; the observable behaviour of a run is
a trace of emitted events and issued SQS calls.
-/

namespace SqsConsumer

/-- A JavaScript error value, restricted to the fields the consumer reads or
writes: `name` (used by the `err.name === SQSError.name` classification),
`message`, and the transport fields copied by `toSQSError`.
`isTimeoutInstance` embeds the JavaScript `err instanceof TimeoutError` test. -/
structure JSError where
  name : String
  message : String
  code : Option String
  statusCode : Option Int
  region : Option String
  retryable : Option Bool
  hostname : Option String
  time : Option Nat
  isTimeoutInstance : Bool
deriving Repr, DecidableEq

/-- Modelled from the spec: the errors module (`./errors`) is not under
`src/`; per the spec's error taxonomy a fresh `new TimeoutError()` is a
timeout-tagged error (it satisfies `instanceof TimeoutError` and its `name`
is the class name `TimeoutError`) with an empty message and no transport
fields. -/
def newTimeoutError : JSError :=
  { name := "TimeoutError"
    message := ""
    code := none
    statusCode := none
    region := none
    retryable := none
    hostname := none
    time := none
    isTimeoutInstance := true }

/-- `isAuthenticationError` from the source:
`err.statusCode === 403 || err.code === 'CredentialsError'`. -/
def isAuthenticationError (err : JSError) : Bool :=
  err.statusCode == some 403 || err.code == some "CredentialsError"

/-- `toSQSError` from the source: wrap an error into an `SQSError` with the
given message, copying the transport fields.  The errors module (not under
`src/`) is modelled from the spec: an `SQSError` instance carries the class
name `SQSError`, which is what the downstream
`err.name === SQSError.name` comparison matches. -/
def toSQSError (err : JSError) (message : String) : JSError :=
  { name := "SQSError"
    message := message
    code := err.code
    statusCode := err.statusCode
    region := err.region
    retryable := err.retryable
    hostname := err.hostname
    time := err.time
    isTimeoutInstance := false }

/-- An SQS message together with the mutable processing metadata the
consumer attaches to it (`finishedProcessing`, `visibilityTimeout`).
In JavaScript `finishedProcessing` starts out `undefined`; the only test the
source performs is `!== true`, so a `Bool` starting at `false` is faithful. -/
structure Message where
  MessageId : String
  ReceiptHandle : String
  Body : String
  finishedProcessing : Bool := false
  visibilityTimeout : Nat := 0
deriving Repr, DecidableEq

/-- The response of `sqs.receiveMessage`: the `Messages` field may be
absent (`response.Messages` falsy). -/
structure SqsResponse where
  Messages : Option (List Message)
deriving Repr, DecidableEq

/-- `hasMessages` from the source:
`response.Messages && response.Messages.length > 0`. -/
def hasMessages (response : SqsResponse) : Bool :=
  response.Messages.isSome && (response.Messages.getD []).length > 0

/-- The constructor options record.  `handleMessage` records whether a
handler function was supplied (its behaviour is part of the per-message
environment, not the configuration); `queueUrl` is `none` when absent.
Numeric options are `Option` to model absent fields. -/
structure Options where
  queueUrl : Option String := none
  handleMessage : Bool := false
  handleMessageTimeout : Option Nat := none
  attributeNames : Option (List String) := none
  messageAttributeNames : Option (List String) := none
  batchSize : Option Int := none
  terminateVisibilityTimeout : Option Bool := none
  extendVisibilityTimeout : Option Bool := none
  waitTimeSeconds : Option Nat := none
  authenticationErrorTimeout : Option Nat := none
deriving Repr, DecidableEq

/-- JavaScript truthiness of an optional string option: absent and the
empty string are falsy. -/
def truthyString : Option String → Bool
  | none => false
  | some s => s ≠ ""

/-- JavaScript `x || d` for an optional numeric option: absent and `0` are
falsy and give the default. -/
def jsOrNat (x : Option Nat) (d : Nat) : Nat :=
  match x with
  | none => d
  | some 0 => d
  | some v => v

/-- JavaScript `x || d` for the (validated integer) batch size. -/
def jsOrInt (x : Option Int) (d : Int) : Int :=
  match x with
  | none => d
  | some v => if v = 0 then d else v

/-- `validate` from the source: each required option (`queueUrl`,
`handleMessage`) must be truthy, and
`options.batchSize > 10 || options.batchSize < 1` throws.  When `batchSize`
is absent the JavaScript comparisons against `undefined` are both false, so
the check passes. -/
def validate (options : Options) : Except String Unit :=
  if ¬ truthyString options.queueUrl then
    .error "Missing SQS consumer option [queueUrl]."
  else if ¬ options.handleMessage then
    .error "Missing SQS consumer option [handleMessage]."
  else
    match options.batchSize with
    | some b =>
        if b > 10 ∨ b < 1 then
          .error "SQS batchSize option must be between 1 and 10."
        else
          .ok ()
    | none => .ok ()

/-- The consumer's configuration and run state after construction.  The
handler function itself is not stored here: how it settles on a given
message is part of the per-message environment. `visibilityTimeout` is the
value cached from `getQueueAttributes`, absent until the first successful
poll cycle. -/
structure Consumer where
  queueUrl : String
  handleMessageTimeout : Option Nat
  attributeNames : List String
  messageAttributeNames : List String
  stopped : Bool
  batchSize : Int
  terminateVisibilityTimeout : Bool
  extendVisibilityTimeout : Bool
  waitTimeSeconds : Nat
  authenticationErrorTimeout : Nat
  visibilityTimeout : Option Nat
deriving Repr, DecidableEq

/-- The `Consumer` constructor: validate the options, then populate the
fields with the source's defaults (`batchSize || 1`,
`waitTimeSeconds || 20`, `authenticationErrorTimeout || 10000`,
flags defaulting to `false`, `stopped = true`). -/
def Consumer.construct (options : Options) : Except String Consumer :=
  match validate options with
  | .error e => .error e
  | .ok _ => .ok
    { queueUrl := options.queueUrl.getD ""
      handleMessageTimeout := options.handleMessageTimeout
      attributeNames := options.attributeNames.getD []
      messageAttributeNames := options.messageAttributeNames.getD []
      stopped := true
      batchSize := jsOrInt options.batchSize 1
      terminateVisibilityTimeout := options.terminateVisibilityTimeout.getD false
      extendVisibilityTimeout := options.extendVisibilityTimeout.getD false
      waitTimeSeconds := jsOrNat options.waitTimeSeconds 20
      authenticationErrorTimeout := jsOrNat options.authenticationErrorTimeout 10000
      visibilityTimeout := none }

/-- `start` from the source: clears `stopped` (and kicks `_poll`);
idempotent when already running. -/
def Consumer.start (c : Consumer) : Consumer :=
  if c.stopped then { c with stopped := false } else c

/-- `stop` from the source: sets `stopped`. -/
def Consumer.stop (c : Consumer) : Consumer :=
  { c with stopped := true }

/-- The events the consumer emits on its `EventEmitter` interface. The
`error` event carries an optional message (the poll-level emit passes no
message; per-message emits pass one). -/
inductive Event
  | stopped
  | empty
  | response_processed
  | message_received (m : Message)
  | message_processed (m : Message)
  | error (err : JSError) (m : Option Message)
  | timeout_error (err : JSError) (m : Message)
  | processing_error (err : JSError) (m : Message)
deriving Repr, DecidableEq

/-- The parameters of the `receiveMessage` call built in `_poll`. -/
structure ReceiveParams where
  QueueUrl : String
  AttributeNames : List String
  MessageAttributeNames : List String
  MaxNumberOfMessages : Int
  WaitTimeSeconds : Nat
  VisibilityTimeout : Option Nat
deriving Repr, DecidableEq

/-- The SQS client calls the consumer issues. -/
inductive SqsCall
  | receiveMessage (params : ReceiveParams)
  | getQueueAttributes (queueUrl : String) (attributeNames : List String)
  | deleteMessage (queueUrl : String) (receiptHandle : String)
  | changeMessageVisibility (queueUrl : String) (receiptHandle : String)
      (visibilityTimeout : Nat)
deriving Repr, DecidableEq

/-- One observable action of a run: an event emission or an SQS call,
recorded in program order. -/
inductive Action
  | emit (e : Event)
  | call (s : SqsCall)
deriving Repr, DecidableEq

instance {ε α : Type} [DecidableEq ε] [DecidableEq α] : DecidableEq (Except ε α)
  | .ok a, .ok b =>
      if h : a = b then .isTrue (by rw [h])
      else .isFalse (by intro hc; cases hc; exact h rfl)
  | .ok _, .error _ => .isFalse (by intro h; cases h)
  | .error _, .ok _ => .isFalse (by intro h; cases h)
  | .error e, .error f =>
      if h : e = f then .isTrue (by rw [h])
      else .isFalse (by intro hc; cases hc; exact h rfl)

/-- The environment for processing one message: how the user handler
settles (when it settles before any timeout), whether it is still pending
when the configured handler-timeout deadline fires, and how the SQS
`deleteMessage` and `changeMessageVisibility` (visibility release) calls
settle for this message. -/
structure MsgEnv where
  handlerResult : Except JSError Unit
  handlerExceedsTimeout : Bool
  deleteResult : Except JSError Unit
  changeVisibilityResult : Except JSError Unit
deriving Repr, DecidableEq

/-- JavaScript truthiness of an optional numeric field: absent
(`undefined`) and `0` are falsy. -/
def truthyOptNat : Option Nat → Bool
  | none => false
  | some v => v != 0

/-- The `Promise.race` in `_executeHandler`: the source guards the race
with `if (this.handleMessageTimeout)` — a truthiness test, so an absent
budget and a budget of `0` both disable the race (direct await).  With a
truthy budget, the race is won by the timeout (rejecting with a fresh
`TimeoutError`) exactly when the handler is still pending at the
deadline. -/
def raceOutcome (c : Consumer) (env : MsgEnv) : Except JSError Unit :=
  if truthyOptNat c.handleMessageTimeout then
    if env.handlerExceedsTimeout then .error newTimeoutError
    else env.handlerResult
  else env.handlerResult

/-- Render an optional number the way JavaScript template literals render
the field (`undefined` when absent), for the timeout error message. -/
def jsShowOptNat : Option Nat → String
  | some n => toString n
  | none => "undefined"

/-- The result of `_executeHandler`: the message with its mutated metadata,
the outcome (the rethrown, relabelled error on failure), and whether the
visibility-extension loop was kicked off before awaiting the handler. -/
structure HandlerRun where
  message : Message
  result : Except JSError Unit
  extensionStarted : Bool
deriving Repr, DecidableEq

/-- The error relabelling in `_executeHandler`'s catch block: a
`TimeoutError` instance gets the `Message handler timed out after <t>ms:`
prefix (the budget rendered as JavaScript renders the field), any other
error the `Unexpected message handler failure:` prefix. -/
def relabelHandlerError (c : Consumer) (err : JSError) : JSError :=
  if err.isTimeoutInstance then
    { err with message := "Message handler timed out after " ++
        jsShowOptNat c.handleMessageTimeout ++ "ms: " ++ err.message }
  else
    { err with message := "Unexpected message handler failure: " ++
        err.message }

/-- `_executeHandler` from the source: set `finishedProcessing := false`
and seed `message.visibilityTimeout` from the cached queue value, kick the
extension loop when `extendVisibilityTimeout` is set, then await the
(possibly raced) handler.  The catch block relabels the error message —
timeout errors get the `Message handler timed out after <t>ms:` prefix,
anything else the `Unexpected message handler failure:` prefix — sets
`finishedProcessing := true`, and rethrows.  On success the metadata is
left as the try block set it. -/
def executeHandler (c : Consumer) (env : MsgEnv) (message : Message) :
    HandlerRun :=
  let message :=
    { message with finishedProcessing := false
                   visibilityTimeout := c.visibilityTimeout.getD 0 }
  let started := c.extendVisibilityTimeout
  match raceOutcome c env with
  | .ok _ => { message := message, result := .ok (), extensionStarted := started }
  | .error err =>
      { message := { message with finishedProcessing := true }
        result := .error (relabelHandlerError c err)
        extensionStarted := started }

/-- The outcome of `_deleteMessage` as seen by its caller: a failing SQS
delete is wrapped by `toSQSError` with the `SQS delete message failed:`
prefix and rethrown. -/
def deleteMessageRes (env : MsgEnv) : Except JSError Unit :=
  match env.deleteResult with
  | .ok _ => .ok ()
  | .error err =>
      .error (toSQSError err ("SQS delete message failed: " ++ err.message))

/-- The error classification in `_processMessage`'s catch block:
`err.name === SQSError.name` routes to `error`, `err instanceof
TimeoutError` to `timeout_error`, anything else to `processing_error`. -/
def classifyEvent (err : JSError) (m : Message) : Event :=
  if err.name = "SQSError" then .error err (some m)
  else if err.isTimeoutInstance then .timeout_error err m
  else .processing_error err m

/-- The tail of `_processMessage`'s catch block: emit the classified
failure event, then, when `terminateVisibilityTimeout` is set, issue the
zero-visibility release; a failure of that release is emitted as a further
`error` event and swallowed. -/
def failureTail (c : Consumer) (env : MsgEnv) (m : Message) (err : JSError) :
    List Action :=
  Action.emit (classifyEvent err m) ::
    (if c.terminateVisibilityTimeout then
      Action.call (.changeMessageVisibility c.queueUrl m.ReceiptHandle 0) ::
        (match env.changeVisibilityResult with
         | .ok _ => []
         | .error err2 => [Action.emit (.error err2 (some m))])
     else [])

/-- `_processMessage` from the source: emit `message_received`, run the
handler via `_executeHandler`; on success delete the message and emit
`message_processed`; any error thrown by the handler or the delete is
caught, classified and handled by the catch-block tail.  The function
itself never throws. -/
def processMessage (c : Consumer) (env : MsgEnv) (message : Message) :
    List Action :=
  Action.emit (.message_received message) ::
    (let run := executeHandler c env message
     match run.result with
     | .ok _ =>
         Action.call (.deleteMessage c.queueUrl run.message.ReceiptHandle) ::
           (match deleteMessageRes env with
            | .ok _ => [Action.emit (.message_processed run.message)]
            | .error err => failureTail c env run.message err)
     | .error err => failureTail c env run.message err)

/-- The `Promise.all(response.Messages.map(this._processMessage))` fan-out:
every message of the batch is dispatched, each with its own environment;
the recorded trace is one sequential interleaving. -/
def processBatch (c : Consumer) : List (Message × MsgEnv) → List Action
  | [] => []
  | (m, env) :: rest => processMessage c env m ++ processBatch c rest

/-- `_handleSqsResponse` from the source: a falsy response does nothing; a
response with messages fans the batch out and then emits
`response_processed`; an empty batch emits `empty`.  In every case the
source then calls `this._poll()` to schedule the next cycle (reflected by
the poll function's next-action, below). -/
def handleSqsResponse (c : Consumer) (response : Option SqsResponse)
    (envs : List MsgEnv) : List Action :=
  match response with
  | none => []
  | some resp =>
      if hasMessages resp then
        processBatch c ((resp.Messages.getD []).zip envs) ++
          [Action.emit .response_processed]
      else
        [Action.emit .empty]

/-- The result of one round of the visibility-extension loop
(`extendTimeout`): the message with its (possibly doubled) tracked
visibility timeout, the trace of that round (at most one
`changeMessageVisibility` call, never an event emission), and the delay
after which the next round is scheduled — `none` when no round ran or when
the `changeMessageVisibility` promise rejected (the `.then` continuation
that schedules the next round is then skipped). -/
structure ExtendResult where
  message : Message
  trace : List Action
  rescheduleDelay : Option Nat
deriving Repr, DecidableEq

/-- `extendTimeout` from the source: while `message.finishedProcessing` is
not `true`, double the tracked `visibilityTimeout`, push the doubled value
to the queue via `changeMessageVisibility`, and — when that call resolves —
schedule the next round after `message.visibilityTimeout * 450`
milliseconds (the new value is in seconds, so this is 45% of it).  A
rejected call is not escalated anywhere: the round's trace carries no
event and the message is not marked failed.  Once `finishedProcessing` is
`true` the round does nothing. -/
def extendTimeout (c : Consumer) (cvRes : Except JSError Unit)
    (message : Message) : ExtendResult :=
  if message.finishedProcessing ≠ true then
    let m1 := { message with visibilityTimeout := message.visibilityTimeout * 2 }
    { message := m1
      trace := [Action.call
        (.changeMessageVisibility c.queueUrl m1.ReceiptHandle m1.visibilityTimeout)]
      rescheduleDelay :=
        match cvRes with
        | .ok _ => some (m1.visibilityTimeout * 450)
        | .error _ => none }
  else
    { message := message, trace := [], rescheduleDelay := none }

/-- How one poll cycle ends: no next cycle scheduled, a direct recursive
`this._poll()` call, or a `setTimeout(() => this._poll(), ms)`. -/
inductive NextAction
  | halted
  | immediate
  | delayed (ms : Nat)
deriving Repr, DecidableEq

/-- The environment of one poll cycle: how the raw `sqs.receiveMessage`
call settles (before `_receiveMessage`'s `toSQSError` wrapping), how
`sqs.getQueueAttributes` settles (with the queue's visibility timeout on
success), and the per-message environments for the received batch. -/
structure PollEnv where
  receiveResult : Except JSError (Option SqsResponse)
  getAttrsResult : Except JSError Nat
  msgEnvs : List MsgEnv
deriving Repr, DecidableEq

/-- The outcome of one `_poll` cycle: its action trace, how the next cycle
is scheduled, and the consumer state afterwards (the cached
`visibilityTimeout` may have been refreshed). -/
structure PollResult where
  trace : List Action
  next : NextAction
  state : Consumer
deriving Repr, DecidableEq

/-- `_poll` from the source, one cycle.  When stopped: emit `stopped` and
halt.  Otherwise issue the receive (failures wrapped by `toSQSError` with
the `SQS receive message failed:` prefix), fetch and cache the queue's
visibility timeout, and hand the response to `_handleSqsResponse`, which
ends by calling `this._poll()` again (next action `immediate`).  Any error
thrown in the try block is emitted as an `error` event; an
authentication-classified error schedules the next cycle after
`authenticationErrorTimeout`, while any other error falls out of the catch
block with no next cycle scheduled. -/
def poll (c : Consumer) (env : PollEnv) : PollResult :=
  if c.stopped then
    { trace := [Action.emit .stopped], next := .halted, state := c }
  else
    let receiveCall := Action.call (.receiveMessage
      { QueueUrl := c.queueUrl
        AttributeNames := c.attributeNames
        MessageAttributeNames := c.messageAttributeNames
        MaxNumberOfMessages := c.batchSize
        WaitTimeSeconds := c.waitTimeSeconds
        VisibilityTimeout := c.visibilityTimeout })
    match env.receiveResult with
    | .error rawErr =>
        let err := toSQSError rawErr
          ("SQS receive message failed: " ++ rawErr.message)
        { trace := [receiveCall, Action.emit (.error err none)]
          next := if isAuthenticationError err then
                    .delayed c.authenticationErrorTimeout
                  else .halted
          state := c }
    | .ok response =>
        let attrsCall := Action.call
          (.getQueueAttributes c.queueUrl ["VisibilityTimeout"])
        match env.getAttrsResult with
        | .error aerr =>
            { trace := [receiveCall, attrsCall, Action.emit (.error aerr none)]
              next := if isAuthenticationError aerr then
                        .delayed c.authenticationErrorTimeout
                      else .halted
              state := c }
        | .ok vt =>
            let c1 := { c with visibilityTimeout := some vt }
            { trace := receiveCall :: attrsCall ::
                handleSqsResponse c1 response env.msgEnvs
              next := .immediate
              state := c1 }

/-! ## Predicates over recorded actions, used to count events and calls -/

def isMessageReceived : Action → Bool
  | .emit (.message_received _) => true
  | _ => false

def isMessageProcessed : Action → Bool
  | .emit (.message_processed _) => true
  | _ => false

def isEmptyEmit : Action → Bool
  | .emit .empty => true
  | _ => false

def isResponseProcessedEmit : Action → Bool
  | .emit .response_processed => true
  | _ => false

def isErrorEmit : Action → Bool
  | .emit (.error _ _) => true
  | _ => false

def isTimeoutErrorEmit : Action → Bool
  | .emit (.timeout_error _ _) => true
  | _ => false

def isProcessingErrorEmit : Action → Bool
  | .emit (.processing_error _ _) => true
  | _ => false

def isDeleteCall : Action → Bool
  | .call (.deleteMessage _ _) => true
  | _ => false

def isChangeVisibilityCall : Action → Bool
  | .call (.changeMessageVisibility _ _ _) => true
  | _ => false

def isEmitAction : Action → Bool
  | .emit _ => true
  | _ => false

/-- Actions that can only originate from `_processMessage` (as opposed to
the batch-level `empty` / `response_processed` / `stopped` emissions and the
receive / get-attributes calls of the poll loop). -/
def perMessageAction : Action → Bool
  | .emit (.message_received _) => true
  | .emit (.message_processed _) => true
  | .emit (.error _ _) => true
  | .emit (.timeout_error _ _) => true
  | .emit (.processing_error _ _) => true
  | .call (.deleteMessage _ _) => true
  | .call (.changeMessageVisibility _ _ _) => true
  | _ => false

/-! ## Concrete fixtures used by the witnesses -/

def sampleMessage : Message :=
  { MessageId := "id-1", ReceiptHandle := "rh-1", Body := "hello" }

def okMsgEnv : MsgEnv :=
  { handlerResult := .ok ()
    handlerExceedsTimeout := false
    deleteResult := .ok ()
    changeVisibilityResult := .ok () }

def genericFailure : JSError :=
  { name := "Error", message := "boom", code := none, statusCode := none
    region := none, retryable := none, hostname := none, time := none
    isTimeoutInstance := false }

def transport500 : JSError :=
  { name := "Error", message := "internal", code := some "InternalError"
    statusCode := some 500, region := none, retryable := none
    hostname := none, time := none, isTimeoutInstance := false }

def auth403 : JSError :=
  { name := "Error", message := "forbidden", code := some "AccessDenied"
    statusCode := some 403, region := none, retryable := none
    hostname := none, time := none, isTimeoutInstance := false }

def baseOptions : Options :=
  { queueUrl := some "https://sqs.eu-west-1/q", handleMessage := true }

def runningConsumer : Consumer :=
  { queueUrl := "https://sqs.eu-west-1/q"
    handleMessageTimeout := none
    attributeNames := []
    messageAttributeNames := []
    stopped := false
    batchSize := 1
    terminateVisibilityTimeout := false
    extendVisibilityTimeout := false
    waitTimeSeconds := 20
    authenticationErrorTimeout := 10000
    visibilityTimeout := some 30 }

def timeoutConsumer : Consumer :=
  { runningConsumer with handleMessageTimeout := some 5000 }

def termConsumer : Consumer :=
  { runningConsumer with terminateVisibilityTimeout := true }

def extConsumer : Consumer :=
  { runningConsumer with extendVisibilityTimeout := true }

def timedOutEnv : MsgEnv :=
  { okMsgEnv with handlerExceedsTimeout := true }

def failEnv : MsgEnv :=
  { okMsgEnv with handlerResult := .error genericFailure }

def deleteFailEnv : MsgEnv :=
  { okMsgEnv with deleteResult := .error transport500 }

def inflightMessage : Message :=
  { sampleMessage with visibilityTimeout := 30 }

end SqsConsumer

namespace SqsConsumer

/-! ## Claim theorems -/

/-- Helper: when validation passes, `Consumer.construct` returns the
populated record. -/
theorem construct_ok_of_validate (o : Options) (h : validate o = .ok ()) :
    Consumer.construct o = .ok
      { queueUrl := o.queueUrl.getD ""
        handleMessageTimeout := o.handleMessageTimeout
        attributeNames := o.attributeNames.getD []
        messageAttributeNames := o.messageAttributeNames.getD []
        stopped := true
        batchSize := jsOrInt o.batchSize 1
        terminateVisibilityTimeout := o.terminateVisibilityTimeout.getD false
        extendVisibilityTimeout := o.extendVisibilityTimeout.getD false
        waitTimeSeconds := jsOrNat o.waitTimeSeconds 20
        authenticationErrorTimeout := jsOrNat o.authenticationErrorTimeout 10000
        visibilityTimeout := none } := by
  unfold Consumer.construct
  rw [h]

/-- C3: with the queue identity and handler present, construction succeeds
for every batch size `b` with `1 ≤ b ≤ 10` and when the batch size is
absent (defaulting to `1`), and fails for every `b` outside `[1, 10]`;
construction also fails whenever the queue identity or the handler is
missing. -/
theorem c3_construction_validates_options (o : Options) :
    ((truthyString o.queueUrl = false ∨ o.handleMessage = false) →
      (Consumer.construct o).isOk = false)
    ∧ (truthyString o.queueUrl = true → o.handleMessage = true →
        (∀ b : Int, o.batchSize = some b → 1 ≤ b → b ≤ 10 →
          ∃ c, Consumer.construct o = .ok c ∧ c.batchSize = b)
        ∧ (o.batchSize = none →
          ∃ c, Consumer.construct o = .ok c ∧ c.batchSize = 1)
        ∧ (∀ b : Int, o.batchSize = some b → (b < 1 ∨ 10 < b) →
          (Consumer.construct o).isOk = false)) := by
  constructor
  · rintro (h | h)
    · simp [Consumer.construct, validate, h, Except.isOk, Except.toBool]
    · cases htq : truthyString o.queueUrl <;>
        simp [Consumer.construct, validate, h, htq, Except.isOk, Except.toBool]
  · intro hq hh
    refine ⟨?_, ?_, ?_⟩
    · intro b hb h1 h10
      have hval : validate o = .ok () := by
        have hnot : ¬ (b > 10 ∨ b < 1) := by omega
        simp [validate, hq, hh, hb, hnot]
      refine ⟨_, construct_ok_of_validate o hval, ?_⟩
      simp only [jsOrInt, hb]
      have hb0 : ¬ b = 0 := by omega
      simp [hb0]
    · intro hb
      have hval : validate o = .ok () := by
        simp [validate, hq, hh, hb]
      refine ⟨_, construct_ok_of_validate o hval, ?_⟩
      simp [jsOrInt, hb]
    · intro b hb hout
      have hcond : b > 10 ∨ b < 1 := by omega
      simp [Consumer.construct, validate, hq, hh, hb, hcond, Except.isOk,
        Except.toBool]

/-- Witness for C3 at concrete inputs: batch size 5 is accepted, an absent
batch size defaults to 1, batch size 11 is rejected, and a missing queue
identity is rejected. -/
theorem c3_construction_validates_options_witness :
    (∃ c, Consumer.construct { baseOptions with batchSize := some 5 } = .ok c
       ∧ c.batchSize = 5)
    ∧ (∃ c, Consumer.construct baseOptions = .ok c ∧ c.batchSize = 1)
    ∧ (Consumer.construct { baseOptions with batchSize := some 11 }).isOk
        = false
    ∧ (Consumer.construct { baseOptions with queueUrl := none }).isOk
        = false := by
  refine ⟨?_, ?_, ?_, ?_⟩
  · exact ((c3_construction_validates_options
      { baseOptions with batchSize := some 5 }).2 (by decide) (by decide)).1
      5 rfl (by decide) (by decide)
  · exact ((c3_construction_validates_options baseOptions).2 (by decide)
      (by decide)).2.1 rfl
  · exact ((c3_construction_validates_options
      { baseOptions with batchSize := some 11 }).2 (by decide) (by decide)).2.2
      11 rfl (by decide)
  · exact (c3_construction_validates_options
      { baseOptions with queueUrl := none }).1 (Or.inl (by decide))

/-- Helper: the outcome of `_executeHandler` when the (possibly raced)
handler resolves: metadata seeded, no failure, extension kicked exactly
when configured. -/
theorem executeHandler_ok (c : Consumer) (env : MsgEnv) (m : Message)
    (h : raceOutcome c env = .ok ()) :
    executeHandler c env m =
      { message := { m with finishedProcessing := false
                            visibilityTimeout := c.visibilityTimeout.getD 0 }
        result := .ok ()
        extensionStarted := c.extendVisibilityTimeout } := by
  unfold executeHandler
  rw [h]

/-- Helper: the outcome of `_executeHandler` when the (possibly raced)
handler rejects: the flag flips, the error message is relabelled by kind,
and the relabelled error is rethrown. -/
theorem executeHandler_error (c : Consumer) (env : MsgEnv) (m : Message)
    (e : JSError) (h : raceOutcome c env = .error e) :
    executeHandler c env m =
      { message := { m with finishedProcessing := true
                            visibilityTimeout := c.visibilityTimeout.getD 0 }
        result := .error (relabelHandlerError c e)
        extensionStarted := c.extendVisibilityTimeout } := by
  unfold executeHandler
  rw [h]

/-- Helper: the trace of a successfully handled and deleted message. -/
theorem processMessage_ok (c : Consumer) (env : MsgEnv) (m : Message)
    (hrace : raceOutcome c env = .ok ())
    (hdel : env.deleteResult = .ok ()) :
    processMessage c env m =
      [Action.emit (.message_received m),
       Action.call (.deleteMessage c.queueUrl m.ReceiptHandle),
       Action.emit (.message_processed
         { m with finishedProcessing := false
                  visibilityTimeout := c.visibilityTimeout.getD 0 })] := by
  unfold processMessage deleteMessageRes
  rw [executeHandler_ok c env m hrace, hdel]

/-- C6: when the handler resolves and the delete succeeds, the message's
trace is exactly `message_received`, one `deleteMessage` call carrying its
receipt handle, and one `message_processed` event; no `error`,
`timeout_error` or `processing_error` event fires for the message. -/
theorem c6_success_one_delete_one_processed (c : Consumer) (env : MsgEnv)
    (m : Message)
    (hrace : raceOutcome c env = .ok ())
    (hdel : env.deleteResult = .ok ()) :
    (processMessage c env m).countP isDeleteCall = 1
    ∧ Action.call (.deleteMessage c.queueUrl m.ReceiptHandle)
        ∈ processMessage c env m
    ∧ (processMessage c env m).countP isMessageProcessed = 1
    ∧ (processMessage c env m).countP isErrorEmit = 0
    ∧ (processMessage c env m).countP isTimeoutErrorEmit = 0
    ∧ (processMessage c env m).countP isProcessingErrorEmit = 0 := by
  rw [processMessage_ok c env m hrace hdel]
  refine ⟨?_, ?_, ?_, ?_, ?_, ?_⟩ <;>
    simp [List.countP_cons, isDeleteCall, isMessageProcessed, isErrorEmit,
      isTimeoutErrorEmit, isProcessingErrorEmit]

/-- Witness for C6 at a concrete consumer, environment and message. -/
theorem c6_success_one_delete_one_processed_witness :
    (processMessage runningConsumer okMsgEnv sampleMessage).countP
      isDeleteCall = 1
    ∧ Action.call (.deleteMessage runningConsumer.queueUrl
        sampleMessage.ReceiptHandle)
        ∈ processMessage runningConsumer okMsgEnv sampleMessage
    ∧ (processMessage runningConsumer okMsgEnv sampleMessage).countP
        isMessageProcessed = 1
    ∧ (processMessage runningConsumer okMsgEnv sampleMessage).countP
        isErrorEmit = 0
    ∧ (processMessage runningConsumer okMsgEnv sampleMessage).countP
        isTimeoutErrorEmit = 0
    ∧ (processMessage runningConsumer okMsgEnv sampleMessage).countP
        isProcessingErrorEmit = 0 :=
  c6_success_one_delete_one_processed runningConsumer okMsgEnv sampleMessage
    (by decide) (by decide)

/-- Helper: with a configured truthy (non-zero) budget, a handler still
pending at the deadline loses the race to a fresh `TimeoutError`. -/
theorem raceOutcome_timeout (c : Consumer) (env : MsgEnv) (t : Nat)
    (hb : c.handleMessageTimeout = some t) (ht0 : t ≠ 0)
    (hx : env.handlerExceedsTimeout = true) :
    raceOutcome c env = .error newTimeoutError := by
  unfold raceOutcome
  rw [hb, hx]
  simp [truthyOptNat, ht0]

/-- C7: a handler exceeding its configured budget (a truthy, i.e.
non-zero, `handleMessageTimeout`) yields exactly one `timeout_error` event
whose error message carries the budget in milliseconds, and no delete call
is issued for the message; whenever no truthy budget is configured — the
option absent, or `0`, both falsy under the source's
`if (this.handleMessageTimeout)` guard — there is no race: the handler's
own settlement is the outcome for every environment. -/
theorem c7_timeout_budget_event (c : Consumer) (env : MsgEnv) (m : Message)
    (t : Nat)
    (hb : c.handleMessageTimeout = some t) (ht0 : t ≠ 0)
    (hx : env.handlerExceedsTimeout = true) :
    (processMessage c env m).countP isTimeoutErrorEmit = 1
    ∧ (∃ e m1, Action.emit (.timeout_error e m1) ∈ processMessage c env m
        ∧ e.message = "Message handler timed out after " ++ toString t ++
            "ms: " ++ newTimeoutError.message)
    ∧ (processMessage c env m).countP isDeleteCall = 0
    ∧ (∀ (c2 : Consumer) (env2 : MsgEnv),
        truthyOptNat c2.handleMessageTimeout = false →
        raceOutcome c2 env2 = env2.handlerResult) := by
  have hrun := executeHandler_error c env m newTimeoutError
    (raceOutcome_timeout c env t hb ht0 hx)
  have he : (relabelHandlerError c newTimeoutError).message =
      "Message handler timed out after " ++ toString t ++ "ms: " ++
        newTimeoutError.message := by
    unfold relabelHandlerError
    rw [hb]
    simp [newTimeoutError, jsShowOptNat]
  refine ⟨?_, ?_, ?_, ?_⟩
  · simp only [processMessage, hrun]
    unfold failureTail classifyEvent relabelHandlerError
    rw [hb]
    cases hterm : c.terminateVisibilityTimeout <;>
      cases hcv : env.changeVisibilityResult <;>
        simp [newTimeoutError, List.countP_cons, isTimeoutErrorEmit]
  · refine ⟨relabelHandlerError c newTimeoutError,
      { m with finishedProcessing := true
               visibilityTimeout := c.visibilityTimeout.getD 0 }, ?_, he⟩
    simp only [processMessage, hrun]
    unfold failureTail classifyEvent
    have h1 : (relabelHandlerError c newTimeoutError).name = "TimeoutError" := by
      simp [relabelHandlerError, newTimeoutError]
    have h2 : (relabelHandlerError c newTimeoutError).isTimeoutInstance = true := by
      simp [relabelHandlerError, newTimeoutError]
    simp [h1, h2]
  · simp only [processMessage, hrun]
    unfold failureTail classifyEvent relabelHandlerError
    rw [hb]
    cases hterm : c.terminateVisibilityTimeout <;>
      cases hcv : env.changeVisibilityResult <;>
        simp [newTimeoutError, List.countP_cons, isDeleteCall]
  · intro c2 env2 h2
    unfold raceOutcome
    rw [h2]
    simp

/-- Witness for C7 at a concrete consumer with a 5000 ms budget and a
handler still pending at the deadline. -/
theorem c7_timeout_budget_event_witness :
    (processMessage timeoutConsumer timedOutEnv sampleMessage).countP
        isTimeoutErrorEmit = 1
    ∧ (processMessage timeoutConsumer timedOutEnv sampleMessage).countP
        isDeleteCall = 0 :=
  ⟨(c7_timeout_budget_event timeoutConsumer timedOutEnv sampleMessage 5000
      rfl (by decide) rfl).1,
   (c7_timeout_budget_event timeoutConsumer timedOutEnv sampleMessage 5000
      rfl (by decide) rfl).2.2.1⟩

/-- Helper: `_executeHandler` never changes the receipt handle. -/
theorem executeHandler_receiptHandle (c : Consumer) (env : MsgEnv)
    (m : Message) :
    (executeHandler c env m).message.ReceiptHandle = m.ReceiptHandle := by
  unfold executeHandler
  split <;> simp

/-- Helper: the trace of a message whose handler run rejects. -/
theorem processMessage_error (c : Consumer) (env : MsgEnv) (m : Message)
    (e : JSError) (h : (executeHandler c env m).result = Except.error e) :
    processMessage c env m = Action.emit (.message_received m) ::
      failureTail c env (executeHandler c env m).message e := by
  simp only [processMessage]
  rw [h]

/-- Helper: the trace of a message whose handler run resolves but whose
delete call fails. -/
theorem processMessage_deleteFail (c : Consumer) (env : MsgEnv) (m : Message)
    (e : JSError) (hok : (executeHandler c env m).result = Except.ok ())
    (hd : deleteMessageRes env = Except.error e) :
    processMessage c env m = Action.emit (.message_received m) ::
      Action.call (.deleteMessage c.queueUrl
        (executeHandler c env m).message.ReceiptHandle) ::
      failureTail c env (executeHandler c env m).message e := by
  simp only [processMessage]
  rw [hok, hd]

/-- C5: a failure of the handler run or of the delete call is caught at the
message-processor boundary, classified into exactly one of the three
failure events (`error` for transport-tagged errors, `timeout_error` for
timeout instances, `processing_error` otherwise) with the error and the
message attached, and the rest of the batch is still processed. -/
theorem c5_failure_classified_and_contained (c : Consumer) (env : MsgEnv)
    (m : Message) (e : JSError)
    (hfail : (executeHandler c env m).result = Except.error e
      ∨ ((executeHandler c env m).result = Except.ok ()
          ∧ deleteMessageRes env = Except.error e)) :
    Action.emit (classifyEvent e (executeHandler c env m).message)
        ∈ processMessage c env m
    ∧ ((e.name = "SQSError"
          ∧ classifyEvent e (executeHandler c env m).message
              = .error e (some (executeHandler c env m).message))
       ∨ (e.name ≠ "SQSError" ∧ e.isTimeoutInstance = true
          ∧ classifyEvent e (executeHandler c env m).message
              = .timeout_error e (executeHandler c env m).message)
       ∨ (e.name ≠ "SQSError" ∧ e.isTimeoutInstance = false
          ∧ classifyEvent e (executeHandler c env m).message
              = .processing_error e (executeHandler c env m).message))
    ∧ (∀ (rest : List (Message × MsgEnv)),
        processBatch c ((m, env) :: rest)
          = processMessage c env m ++ processBatch c rest) := by
  refine ⟨?_, ?_, ?_⟩
  · rcases hfail with h | ⟨hok, hd⟩
    · rw [processMessage_error c env m e h]
      unfold failureTail
      exact List.mem_cons_of_mem _ (List.mem_cons_self _ _)
    · rw [processMessage_deleteFail c env m e hok hd]
      unfold failureTail
      exact List.mem_cons_of_mem _ (List.mem_cons_of_mem _
        (List.mem_cons_self _ _))
  · by_cases h1 : e.name = "SQSError"
    · exact Or.inl ⟨h1, by simp [classifyEvent, h1]⟩
    · by_cases h2 : e.isTimeoutInstance
      · exact Or.inr (Or.inl ⟨h1, h2, by simp [classifyEvent, h1, h2]⟩)
      · exact Or.inr (Or.inr ⟨h1, by simpa using h2,
          by simp [classifyEvent, h1, h2]⟩)
  · intro rest
    rfl

/-- Witness for C5: a generic handler failure on a concrete message is
classified as `processing_error` and the batch equation holds for a
singleton remainder. -/
theorem c5_failure_classified_and_contained_witness :
    Action.emit (classifyEvent (relabelHandlerError runningConsumer
        genericFailure) (executeHandler runningConsumer failEnv
        sampleMessage).message)
      ∈ processMessage runningConsumer failEnv sampleMessage
    ∧ processBatch runningConsumer
        [(sampleMessage, failEnv), (sampleMessage, okMsgEnv)]
      = processMessage runningConsumer failEnv sampleMessage ++
          processBatch runningConsumer [(sampleMessage, okMsgEnv)] := by
  have h := c5_failure_classified_and_contained runningConsumer failEnv
    sampleMessage (relabelHandlerError runningConsumer genericFailure)
    (Or.inl (by decide))
  exact ⟨h.1, h.2.2 [(sampleMessage, okMsgEnv)]⟩

/-- C8: with `terminateVisibilityTimeout` enabled, every message failure is
followed — after the classified failure event — by a
`changeMessageVisibility` call with visibility timeout 0 for the message's
receipt handle; a failure of that release call is emitted as a further
`error` event and swallowed (the trace simply ends there). -/
theorem c8_terminate_visibility_after_failure (c : Consumer) (env : MsgEnv)
    (m : Message) (e : JSError)
    (hterm : c.terminateVisibilityTimeout = true)
    (hfail : (executeHandler c env m).result = Except.error e
      ∨ ((executeHandler c env m).result = Except.ok ()
          ∧ deleteMessageRes env = Except.error e)) :
    (executeHandler c env m).message.ReceiptHandle = m.ReceiptHandle
    ∧ ∃ pre, processMessage c env m = pre ++
        Action.emit (classifyEvent e (executeHandler c env m).message) ::
        Action.call (.changeMessageVisibility c.queueUrl
          (executeHandler c env m).message.ReceiptHandle 0) ::
        (match env.changeVisibilityResult with
         | .ok _ => []
         | .error e2 => [Action.emit
            (.error e2 (some (executeHandler c env m).message))]) := by
  refine ⟨executeHandler_receiptHandle c env m, ?_⟩
  rcases hfail with h | ⟨hok, hd⟩
  · refine ⟨[Action.emit (.message_received m)], ?_⟩
    rw [processMessage_error c env m e h]
    unfold failureTail
    rw [hterm]
    simp
  · refine ⟨[Action.emit (.message_received m),
      Action.call (.deleteMessage c.queueUrl
        (executeHandler c env m).message.ReceiptHandle)], ?_⟩
    rw [processMessage_deleteFail c env m e hok hd]
    unfold failureTail
    rw [hterm]
    simp

/-- Witness for C8: a concrete failing handler with the terminate flag set
issues the zero-visibility release right after the `processing_error`
event. -/
theorem c8_terminate_visibility_after_failure_witness :
    (executeHandler termConsumer failEnv sampleMessage).message.ReceiptHandle
      = sampleMessage.ReceiptHandle
    ∧ ∃ pre, processMessage termConsumer failEnv sampleMessage = pre ++
        Action.emit (classifyEvent (relabelHandlerError termConsumer
          genericFailure)
          (executeHandler termConsumer failEnv sampleMessage).message) ::
        Action.call (.changeMessageVisibility termConsumer.queueUrl
          (executeHandler termConsumer failEnv
            sampleMessage).message.ReceiptHandle 0) ::
        (match failEnv.changeVisibilityResult with
         | .ok _ => []
         | .error e2 => [Action.emit (.error e2
            (some (executeHandler termConsumer failEnv
              sampleMessage).message))]) :=
  c8_terminate_visibility_after_failure termConsumer failEnv sampleMessage
    (relabelHandlerError termConsumer genericFailure) rfl (Or.inl (by decide))

/-- C10: a successful handler followed by a failing delete produces an
`SQSError`-tagged wrapper (message prefixed `SQS delete message failed:`,
code and status code copied from the underlying error) which is emitted as
an `error` event with the message attached; no `message_processed` event
fires, and with the terminate flag set the zero-visibility release is
still attempted. -/
theorem c10_delete_failure_emits_sqs_error (c : Consumer) (env : MsgEnv)
    (m : Message) (derr : JSError)
    (hrace : raceOutcome c env = Except.ok ())
    (hdel : env.deleteResult = Except.error derr) :
    (toSQSError derr ("SQS delete message failed: " ++ derr.message)).message
        = "SQS delete message failed: " ++ derr.message
    ∧ (toSQSError derr ("SQS delete message failed: " ++ derr.message)).code
        = derr.code
    ∧ (toSQSError derr
        ("SQS delete message failed: " ++ derr.message)).statusCode
        = derr.statusCode
    ∧ Action.emit (.error
        (toSQSError derr ("SQS delete message failed: " ++ derr.message))
        (some (executeHandler c env m).message)) ∈ processMessage c env m
    ∧ (processMessage c env m).countP isMessageProcessed = 0
    ∧ (c.terminateVisibilityTimeout = true →
        Action.call (.changeMessageVisibility c.queueUrl
          (executeHandler c env m).message.ReceiptHandle 0)
          ∈ processMessage c env m) := by
  have hok : (executeHandler c env m).result = Except.ok () := by
    rw [executeHandler_ok c env m hrace]
  have hd : deleteMessageRes env = Except.error
      (toSQSError derr ("SQS delete message failed: " ++ derr.message)) := by
    unfold deleteMessageRes
    rw [hdel]
  have htrace := processMessage_deleteFail c env m
    (toSQSError derr ("SQS delete message failed: " ++ derr.message)) hok hd
  have hclass : classifyEvent
      (toSQSError derr ("SQS delete message failed: " ++ derr.message))
      (executeHandler c env m).message
      = .error (toSQSError derr ("SQS delete message failed: " ++ derr.message))
          (some (executeHandler c env m).message) := by
    simp [classifyEvent, toSQSError]
  refine ⟨rfl, rfl, rfl, ?_, ?_, ?_⟩
  · rw [htrace]
    unfold failureTail
    rw [hclass]
    exact List.mem_cons_of_mem _ (List.mem_cons_of_mem _
      (List.mem_cons_self _ _))
  · rw [htrace]
    unfold failureTail
    rw [hclass]
    cases hterm : c.terminateVisibilityTimeout <;>
      cases hcv : env.changeVisibilityResult <;>
        simp [List.countP_cons, isMessageProcessed]
  · intro hterm
    rw [htrace]
    unfold failureTail
    rw [hterm]
    cases hcv : env.changeVisibilityResult <;> simp

/-- Witness for C10 at a concrete consumer (terminate flag set), a
successful handler and a delete call failing with a 500-status transport
error. -/
theorem c10_delete_failure_emits_sqs_error_witness :
    Action.emit (.error
        (toSQSError transport500
          ("SQS delete message failed: " ++ transport500.message))
        (some (executeHandler termConsumer deleteFailEnv
          sampleMessage).message))
      ∈ processMessage termConsumer deleteFailEnv sampleMessage
    ∧ (processMessage termConsumer deleteFailEnv sampleMessage).countP
        isMessageProcessed = 0
    ∧ Action.call (.changeMessageVisibility termConsumer.queueUrl
        (executeHandler termConsumer deleteFailEnv
          sampleMessage).message.ReceiptHandle 0)
      ∈ processMessage termConsumer deleteFailEnv sampleMessage := by
  have h := c10_delete_failure_emits_sqs_error termConsumer deleteFailEnv
    sampleMessage transport500 (by decide) (by decide)
  exact ⟨h.2.2.2.1, h.2.2.2.2.1, h.2.2.2.2.2 rfl⟩

/-- C9: while `finishedProcessing` is false, an extension round doubles the
tracked visibility timeout, pushes exactly the doubled value via one
`changeMessageVisibility` call, and — when that call resolves — reschedules
the next round after the new value times 450 ms (45% of the new value in
seconds); the round never emits an event and never marks the message
failed, whatever the call's outcome, and the extension loop is kicked off
by the handler run exactly when `extendVisibilityTimeout` is enabled. -/
theorem c9_extension_round_doubles (c : Consumer)
    (cvRes : Except JSError Unit) (m : Message)
    (hfin : m.finishedProcessing = false) :
    (extendTimeout c cvRes m).message.visibilityTimeout
        = m.visibilityTimeout * 2
    ∧ (extendTimeout c cvRes m).trace =
        [Action.call (.changeMessageVisibility c.queueUrl m.ReceiptHandle
          (m.visibilityTimeout * 2))]
    ∧ (cvRes = .ok () → (extendTimeout c cvRes m).rescheduleDelay
        = some (m.visibilityTimeout * 2 * 450))
    ∧ (extendTimeout c cvRes m).trace.countP isEmitAction = 0
    ∧ (extendTimeout c cvRes m).message.finishedProcessing = false
    ∧ (∀ (env : MsgEnv) (m2 : Message), c.extendVisibilityTimeout = true →
        (executeHandler c env m2).extensionStarted = true) := by
  have h : extendTimeout c cvRes m =
      { message := { m with visibilityTimeout := m.visibilityTimeout * 2 }
        trace := [Action.call (.changeMessageVisibility c.queueUrl
          m.ReceiptHandle (m.visibilityTimeout * 2))]
        rescheduleDelay :=
          match cvRes with
          | .ok _ => some (m.visibilityTimeout * 2 * 450)
          | .error _ => none } := by
    unfold extendTimeout
    rw [hfin]
    simp
  rw [h]
  refine ⟨rfl, rfl, ?_, by simp [List.countP_cons, isEmitAction], hfin, ?_⟩
  · intro hok
    rw [hok]
  · intro env m2 hext
    unfold executeHandler
    split <;> simp [hext]

/-- Witness for C9: a 30-second in-flight message is pushed to 60 seconds
and the next round is scheduled after 27000 ms. -/
theorem c9_extension_round_doubles_witness :
    (extendTimeout extConsumer (.ok ()) inflightMessage).message.visibilityTimeout
        = inflightMessage.visibilityTimeout * 2
    ∧ (extendTimeout extConsumer (.ok ()) inflightMessage).trace =
        [Action.call (.changeMessageVisibility extConsumer.queueUrl
          inflightMessage.ReceiptHandle (inflightMessage.visibilityTimeout * 2))]
    ∧ (extendTimeout extConsumer (.ok ()) inflightMessage).rescheduleDelay
        = some (inflightMessage.visibilityTimeout * 2 * 450) := by
  have h := c9_extension_round_doubles extConsumer (.ok ()) inflightMessage rfl
  exact ⟨h.1, h.2.1, h.2.2.1 rfl⟩

/-- C2 (code divergence, evaluated at the failing input): after a handler
run that RESOLVES, the code leaves `finishedProcessing` at `false` — it is
set `true` only in the failure catch — so a further extension round still
issues a `changeMessageVisibility` call for the already-processed message.
The failure half of the claim and the stop condition do hold: a failed run
flips the flag, and a flag that is `true` yields a round with no call and
no reschedule. -/
theorem c2_success_does_not_stop_extension :
    (executeHandler extConsumer okMsgEnv sampleMessage).result = Except.ok ()
    ∧ (executeHandler extConsumer okMsgEnv
        sampleMessage).message.finishedProcessing = false
    ∧ (extendTimeout extConsumer (.ok ())
        (executeHandler extConsumer okMsgEnv sampleMessage).message).trace ≠ []
    ∧ (executeHandler extConsumer failEnv
        sampleMessage).message.finishedProcessing = true
    ∧ (extendTimeout extConsumer (.ok ())
        { sampleMessage with finishedProcessing := true }).trace = []
    ∧ (extendTimeout extConsumer (.ok ())
        { sampleMessage with finishedProcessing := true }).rescheduleDelay
        = none := by
  decide

/-- C1 (code divergence, evaluated at the failing input): a receive call
failing with a non-authentication error (HTTP status 500) emits exactly one
`error` event but schedules NO next cycle — the poll loop halts — while an
authentication-classified failure (HTTP status 403) schedules the next
cycle after the configured 10000 ms backoff. -/
theorem c1_nonauth_receive_failure_halts_loop :
    (poll runningConsumer
      { receiveResult := .error transport500, getAttrsResult := .ok 30,
        msgEnvs := [] }).next = NextAction.halted
    ∧ (poll runningConsumer
        { receiveResult := .error transport500, getAttrsResult := .ok 30,
          msgEnvs := [] }).trace.countP isErrorEmit = 1
    ∧ (poll runningConsumer
        { receiveResult := .error auth403, getAttrsResult := .ok 30,
          msgEnvs := [] }).next = NextAction.delayed 10000 := by
  decide

/-- Helper: the trace of a message whose handler run resolves and whose
delete succeeds, phrased from the run's result. -/
theorem processMessage_okRes (c : Consumer) (env : MsgEnv) (m : Message)
    (hok : (executeHandler c env m).result = Except.ok ())
    (hd : deleteMessageRes env = Except.ok ()) :
    processMessage c env m = [Action.emit (.message_received m),
      Action.call (.deleteMessage c.queueUrl
        (executeHandler c env m).message.ReceiptHandle),
      Action.emit (.message_processed (executeHandler c env m).message)] := by
  simp only [processMessage]
  rw [hok, hd]

/-- Helper: every action of the catch-block tail is a per-message action
and none of them is a `message_received` emission. -/
theorem failureTail_mem (c : Consumer) (env : MsgEnv) (m : Message)
    (e : JSError) :
    ∀ a ∈ failureTail c env m e,
      perMessageAction a = true ∧ isMessageReceived a = false := by
  intro a ha
  unfold failureTail at ha
  have hclass : perMessageAction (Action.emit (classifyEvent e m)) = true
      ∧ isMessageReceived (Action.emit (classifyEvent e m)) = false := by
    unfold classifyEvent
    by_cases h1 : e.name = "SQSError" <;> by_cases h2 : e.isTimeoutInstance <;>
      simp [h1, h2, perMessageAction, isMessageReceived]
  rcases List.mem_cons.mp ha with rfl | htail
  · exact hclass
  · by_cases h3 : c.terminateVisibilityTimeout = true
    · simp only [h3, if_true] at htail
      rcases List.mem_cons.mp htail with rfl | htail2
      · simp [perMessageAction, isMessageReceived]
      · cases hcv : env.changeVisibilityResult with
        | ok u =>
            rw [hcv] at htail2
            simp at htail2
        | error e2 =>
            rw [hcv] at htail2
            simp at htail2
            subst htail2
            simp [perMessageAction, isMessageReceived]
    · simp only [h3, if_false] at htail
      simp at htail

/-- Helper: the trace of one message is `message_received` followed by
per-message actions none of which is another `message_received`. -/
theorem processMessage_eq_cons (c : Consumer) (env : MsgEnv) (m : Message) :
    ∃ t, processMessage c env m = Action.emit (.message_received m) :: t
      ∧ ∀ a ∈ t, perMessageAction a = true ∧ isMessageReceived a = false := by
  cases hres : (executeHandler c env m).result with
  | ok u =>
      cases u
      cases hd : deleteMessageRes env with
      | ok u2 =>
          cases u2
          refine ⟨_, processMessage_okRes c env m hres hd, ?_⟩
          intro a ha
          rcases List.mem_cons.mp ha with rfl | ha2
          · simp [perMessageAction, isMessageReceived]
          · simp at ha2
            subst ha2
            simp [perMessageAction, isMessageReceived]
      | error e =>
          refine ⟨_, processMessage_deleteFail c env m e hres hd, ?_⟩
          intro a ha
          rcases List.mem_cons.mp ha with rfl | ha2
          · simp [perMessageAction, isMessageReceived]
          · exact failureTail_mem c env _ e a ha2
  | error e =>
      refine ⟨_, processMessage_error c env m e hres, ?_⟩
      exact failureTail_mem c env _ e

/-- Helper: one message's trace emits `message_received` exactly once. -/
theorem processMessage_countP_received (c : Consumer) (env : MsgEnv)
    (m : Message) :
    (processMessage c env m).countP isMessageReceived = 1 := by
  obtain ⟨t, ht, hmem⟩ := processMessage_eq_cons c env m
  rw [ht, List.countP_cons]
  have hzero : t.countP isMessageReceived = 0 :=
    List.countP_eq_zero.mpr (fun a ha => by simp [(hmem a ha).2])
  simp [hzero, isMessageReceived]

/-- Helper: one message's trace consists of per-message actions only. -/
theorem mem_processMessage_per (c : Consumer) (env : MsgEnv) (m : Message) :
    ∀ a ∈ processMessage c env m, perMessageAction a = true := by
  obtain ⟨t, ht, hmem⟩ := processMessage_eq_cons c env m
  rw [ht]
  intro a ha
  rcases List.mem_cons.mp ha with rfl | h2
  · simp [perMessageAction]
  · exact (hmem a h2).1

/-- Helper: a batch's trace emits `message_received` once per message. -/
theorem processBatch_countP_received (c : Consumer)
    (l : List (Message × MsgEnv)) :
    (processBatch c l).countP isMessageReceived = l.length := by
  induction l with
  | nil => rfl
  | cons p rest ih =>
      cases p with
      | mk pm pe =>
          rw [processBatch, List.countP_append,
            processMessage_countP_received, ih]
          simp [Nat.add_comm]

/-- Helper: a batch's trace consists of per-message actions only. -/
theorem mem_processBatch_per (c : Consumer) (l : List (Message × MsgEnv)) :
    ∀ a ∈ processBatch c l, perMessageAction a = true := by
  induction l with
  | nil =>
      intro a ha
      simp [processBatch] at ha
  | cons p rest ih =>
      cases p with
      | mk pm pe =>
          intro a ha
          rw [processBatch] at ha
          rcases List.mem_append.mp ha with h | h
          · exact mem_processMessage_per c pe pm a h
          · exact ih a h

/-- Helper: a per-message action is neither an `empty` nor a
`response_processed` emission. -/
theorem perMessage_not_batch_event (a : Action)
    (hp : perMessageAction a = true) :
    isEmptyEmit a = false ∧ isResponseProcessedEmit a = false := by
  cases a with
  | emit e =>
      cases e <;> simp_all [perMessageAction, isEmptyEmit,
        isResponseProcessedEmit]
  | call s => simp [isEmptyEmit, isResponseProcessedEmit]

/-- Helper: the shape of a poll cycle whose receive and get-attributes
calls both succeed. -/
theorem poll_ok_shape (c : Consumer) (env : PollEnv)
    (resp : Option SqsResponse) (vt : Nat)
    (hs : c.stopped = false)
    (hr : env.receiveResult = .ok resp)
    (ha : env.getAttrsResult = .ok vt) :
    poll c env =
      { trace := Action.call (.receiveMessage
          { QueueUrl := c.queueUrl
            AttributeNames := c.attributeNames
            MessageAttributeNames := c.messageAttributeNames
            MaxNumberOfMessages := c.batchSize
            WaitTimeSeconds := c.waitTimeSeconds
            VisibilityTimeout := c.visibilityTimeout }) ::
          Action.call (.getQueueAttributes c.queueUrl ["VisibilityTimeout"]) ::
          handleSqsResponse { c with visibilityTimeout := some vt } resp
            env.msgEnvs
        next := .immediate
        state := { c with visibilityTimeout := some vt } } := by
  unfold poll
  rw [hs, hr, ha]
  simp

/-- C4: in a successful poll cycle, an empty batch yields exactly one
`empty` event, no `message_received`, and an immediately scheduled next
cycle; a non-empty batch yields `message_received` once per message and
exactly one `response_processed`, emitted last — after every message has
settled, whatever each message's outcome — with the next cycle again
scheduled. -/
theorem c4_poll_cycle_batch_events (c : Consumer) (env : PollEnv)
    (resp : SqsResponse) (vt : Nat)
    (hs : c.stopped = false)
    (hr : env.receiveResult = .ok (some resp))
    (ha : env.getAttrsResult = .ok vt)
    (hlen : env.msgEnvs.length = (resp.Messages.getD []).length) :
    (hasMessages resp = false →
      (poll c env).trace.countP isEmptyEmit = 1
      ∧ (poll c env).trace.countP isMessageReceived = 0
      ∧ (poll c env).next = .immediate)
    ∧ (hasMessages resp = true →
      (poll c env).trace.countP isMessageReceived
          = (resp.Messages.getD []).length
      ∧ (poll c env).trace.countP isResponseProcessedEmit = 1
      ∧ (poll c env).trace.getLast? = some (Action.emit .response_processed)
      ∧ (poll c env).next = .immediate) := by
  rw [poll_ok_shape c env (some resp) vt hs hr ha]
  constructor
  · intro hempty
    have hh : handleSqsResponse { c with visibilityTimeout := some vt }
        (some resp) env.msgEnvs = [Action.emit .empty] := by
      simp only [handleSqsResponse]
      rw [hempty]
      simp
    rw [hh]
    refine ⟨?_, ?_, rfl⟩ <;>
      simp [List.countP_cons, isEmptyEmit, isMessageReceived]
  · intro hmsgs
    have hh : handleSqsResponse { c with visibilityTimeout := some vt }
        (some resp) env.msgEnvs
        = processBatch { c with visibilityTimeout := some vt }
            ((resp.Messages.getD []).zip env.msgEnvs)
          ++ [Action.emit .response_processed] := by
      simp only [handleSqsResponse]
      rw [hmsgs]
      simp
    rw [hh]
    refine ⟨?_, ?_, ?_, rfl⟩
    · simp only [List.countP_cons, List.countP_append,
        processBatch_countP_received, List.length_zip, hlen]
      simp [isMessageReceived, List.countP_cons]
    · have hz : (processBatch { c with visibilityTimeout := some vt }
          ((resp.Messages.getD []).zip env.msgEnvs)).countP
            isResponseProcessedEmit = 0 :=
        List.countP_eq_zero.mpr (fun a ha2 => by
          simp [(perMessage_not_batch_event a
            (mem_processBatch_per _ _ a ha2)).2])
      simp [List.countP_cons, List.countP_append, hz,
        isResponseProcessedEmit]
    · have hconcat : ∀ (x y : Action) (l : List Action) (z : Action),
          x :: y :: (l ++ [z]) = (x :: y :: l) ++ [z] := by
        intro x y l z
        simp
      rw [hconcat, List.getLast?_concat]

/-- Witness for C4, applied twice: an empty batch (one `empty`, no
`message_received`, immediate reschedule) and a one-message batch (one
`message_received`, one final `response_processed`, immediate
reschedule). -/
theorem c4_poll_cycle_batch_events_witness :
    ((poll runningConsumer
        { receiveResult := .ok (some { Messages := some [] }),
          getAttrsResult := .ok 30, msgEnvs := [] }).trace.countP
        isEmptyEmit = 1
      ∧ (poll runningConsumer
          { receiveResult := .ok (some { Messages := some [] }),
            getAttrsResult := .ok 30, msgEnvs := [] }).trace.countP
          isMessageReceived = 0
      ∧ (poll runningConsumer
          { receiveResult := .ok (some { Messages := some [] }),
            getAttrsResult := .ok 30, msgEnvs := [] }).next = .immediate)
    ∧ ((poll runningConsumer
        { receiveResult := .ok (some { Messages := some [sampleMessage] }),
          getAttrsResult := .ok 30, msgEnvs := [okMsgEnv] }).trace.countP
        isMessageReceived = 1
      ∧ (poll runningConsumer
          { receiveResult := .ok (some { Messages := some [sampleMessage] }),
            getAttrsResult := .ok 30, msgEnvs := [okMsgEnv] }).trace.countP
          isResponseProcessedEmit = 1
      ∧ (poll runningConsumer
          { receiveResult := .ok (some { Messages := some [sampleMessage] }),
            getAttrsResult := .ok 30, msgEnvs := [okMsgEnv] }).trace.getLast?
          = some (Action.emit .response_processed)
      ∧ (poll runningConsumer
          { receiveResult := .ok (some { Messages := some [sampleMessage] }),
            getAttrsResult := .ok 30, msgEnvs := [okMsgEnv] }).next
          = .immediate) := by
  constructor
  · exact (c4_poll_cycle_batch_events runningConsumer
      { receiveResult := .ok (some { Messages := some [] }),
        getAttrsResult := .ok 30, msgEnvs := [] }
      { Messages := some [] } 30 rfl rfl rfl rfl).1 (by decide)
  · exact (c4_poll_cycle_batch_events runningConsumer
      { receiveResult := .ok (some { Messages := some [sampleMessage] }),
        getAttrsResult := .ok 30, msgEnvs := [okMsgEnv] }
      { Messages := some [sampleMessage] } 30 rfl rfl rfl rfl).2 (by decide)

end SqsConsumer
